import Mathlib

/-!
Verification of the zendriver target registry, configuration and browser
lifecycle (shallow embedding of `src/zendriver/core/browser.py` and
`src/zendriver/core/config.py`).

Python lists become `List`, in-place mutation becomes explicit state
passing, and raising becomes `Except` / an explicit error field.
-/

/-- Embedding of `cdp.target.TargetInfo` (the fields the registry code in
`browser.py` reads: `target_id`, `type_`, `url`, `title`, `attached`).
A Python falsy `type_` (empty string) is the empty string here. -/
structure TargetInfo where
  target_id : String
  type_ : String
  url : String
  title : String
  attached : Bool
deriving DecidableEq, Repr

/-- Embedding of a registry record (`zendriver.core.tab.Tab`, a
`Connection` subclass).  `tab.py` / `connection.py` are not under `src/`;
the constructor call sites in `browser.py` (lines 238-246 and 612-620)
pass a websocket url and the `TargetInfo`, and the registry code reads
`t.target_id` and `t.type_`.  Modelled from the spec: a record's id and
type delegate to its server-reported target info ("Every record's `type`
equals the server-reported target type at the time of its last update"). -/
structure Tab where
  websocket_url : String
  target : TargetInfo
deriving DecidableEq, Repr

/-- Model of `Connection.target_id`: delegates to the target info. -/
def Tab.target_id (t : Tab) : String :=
  t.target.target_id

/-- Model of `Connection.type_`: delegates to the target info. -/
def Tab.type_ (t : Tab) : String :=
  t.target.type_

/-- Model of the `Tab(...)` construction performed by `_handle_target_created`
(browser.py lines 238-246) and `update_targets` (lines 612-620):
`ws://{host}:{port}/devtools/{target_info.type_ or "page"}/{target_info.target_id}`. -/
def mkTab (host : String) (port : Nat) (info : TargetInfo) : Tab :=
  { websocket_url :=
      "ws://" ++ host ++ ":" ++ toString port ++ "/devtools/"
        ++ (if info.type_ = "" then "page" else info.type_)
        ++ "/" ++ info.target_id,
    target := info }

/-- Model of `Browser.get_target_by_id` (browser.py lines 287-298): builds the list
of targets with `t.type_ == 'page' and t.target_id == target_id` and
returns its first element, or `None` when the list is empty.  (The
registry only ever holds `Tab` objects, so the `isinstance` check never
fires.) -/
def get_target_by_id (targets : List Tab) (tid : String) : Option Tab :=
  (targets.filter (fun t => t.type_ == "page" && t.target_id == tid)).head?

/-- Model of `Browser._handle_target_created` (browser.py lines 227-250): builds a
new `Tab` from the event's target info and appends it to `self.targets`,
unconditionally. -/
def handle_target_created (host : String) (port : Nat) (targets : List Tab)
    (info : TargetInfo) : List Tab :=
  targets ++ [mkTab host port info]

/-- Model of `Browser._handle_target_info_changed` (browser.py lines 200-225):
looks up the record via `get_target_by_id` (first record with
`type_ == 'page'` and the event's target id); when found, assigns
`current_tab.target = target_info`; when not found, logs and returns
with the registry unchanged.  Mutating the object returned by
`get_target_by_id` is replacing the first matching position. -/
def handle_target_info_changed (targets : List Tab) (info : TargetInfo) : List Tab :=
  match targets with
  | [] => []
  | t :: rest =>
      if t.type_ == "page" && t.target_id == info.target_id then
        { t with target := info } :: rest
      else
        t :: handle_target_info_changed rest info

/-- Model of `Browser._handle_target_destroyed` (browser.py lines 252-266): looks
up the record via `get_target_by_id`; when found, `self.targets.remove`
(removes the first equal element); when not found, logs and returns with
the registry unchanged. -/
def handle_target_destroyed (targets : List Tab) (tid : String) : List Tab :=
  match get_target_by_id targets tid with
  | none => targets
  | some t => targets.erase t

/-- Model of `Browser._handle_target_crashed` (browser.py lines 268-285): identical
registry effect to `_handle_target_destroyed`. -/
def handle_target_crashed (targets : List Tab) (tid : String) : List Tab :=
  match get_target_by_id targets tid with
  | none => targets
  | some t => targets.erase t

/-- The reconciliation step of `Browser.update_targets` (browser.py lines
603-624) for one server-reported target: scan `self.targets` for the
first record with the same `target_id`; on a match, merge the server
fields over the record's target info
(`existing_tab.target.__dict__.update(target_info.__dict__)` — every
field of `TargetInfo` is replaced) and stop; with no match (the `for`
loop's `else`), append a freshly built `Tab`. -/
def update_or_create (host : String) (port : Nat) :
    List Tab → TargetInfo → List Tab
  | [], info => [mkTab host port info]
  | t :: rest, info =>
      if t.target_id == info.target_id then
        { t with target := info } :: rest
      else
        t :: update_or_create host port rest info

/-- Model of `Browser.update_targets` (browser.py lines 603-624): takes the list of
server targets from `target.get-Targets` and runs the update-or-create
reconciliation for each, in order.  No record is ever removed. -/
def update_targets (host : String) (port : Nat) (targets : List Tab)
    (server : List TargetInfo) : List Tab :=
  server.foldl (update_or_create host port) targets

/-- Model of `Browser.tabs` (browser.py lines 172-177): the records of type
`"page"`, in registry order. -/
def browser_tabs (targets : List Tab) : List Tab :=
  targets.filter (fun t => t.type_ == "page")

example :
    get_target_by_id
      [mkTab "h" 1 ⟨"a", "worker", "", "", false⟩,
       mkTab "h" 1 ⟨"a", "page", "", "", false⟩] "a"
    = some (mkTab "h" 1 ⟨"a", "page", "", "", false⟩) := by
  decide

example :
    handle_target_destroyed [mkTab "h" 1 ⟨"a", "worker", "", "", false⟩] "a"
    = [mkTab "h" 1 ⟨"a", "worker", "", "", false⟩] := by
  decide

/-- Model of `arg.lower()` as the list of characters of `arg`, each lowercased. -/
def lowerData (s : String) : List Char := s.data.map Char.toLower

/-- Python's `x in arg.lower()` substring test (the `x` used by
`Config.add_argument` are lowercase literals, so only the haystack is
lowercased). -/
def strContainsSub (hay needle : String) : Bool :=
  decide (needle.data <:+: lowerData hay)

/-- The reserved substrings of `Config.add_argument` (config.py lines
234-242). -/
def reserved_config_args : List String :=
  ["headless", "data-dir", "data_dir", "no-sandbox", "no_sandbox", "lang"]

/-- Model of `Config.add_argument` (config.py lines 232-247): raise `ValueError`
when the lowercased argument contains any reserved substring (the raise
precedes the append, so `_browser_args` is untouched); otherwise append
the argument to `self._browser_args`. -/
def add_argument (browser_args : List String) (arg : String) :
    Except String (List String) :=
  if reserved_config_args.any (fun x => strContainsSub arg x) then
    Except.error
      ("\"" ++ arg
        ++ "\" not allowed. please use one of the attributes of the Config object to set it")
  else
    Except.ok (browser_args ++ [arg])

/-- The configuration fields `Browser.start` (browser.py lines 365-423)
reads before deciding whether to spawn. -/
structure StartConfig where
  host : Option String
  port : Option Nat
  lang : Option String
  extensions : List String
  browser_executable_path : String
  browser_args : List String
deriving DecidableEq, Repr

/-- The exceptions `Browser.start` can raise before spawning:
`FileNotFoundError` from the executable check (browser.py lines 389-404)
and `ValueError` from `Config.add_argument` (config.py lines 244-246). -/
inductive StartError where
  | fileNotFound
  | configError (msg : String)
deriving DecidableEq, Repr

/-- The observable actions of one `Browser.start` run up to the spawn:
the host/port the config ends up with, whether the executable check ran,
whether a process was spawned, and the exception if one was raised. -/
structure StartTrace where
  host : String
  port : Nat
  checked_executable : Bool
  spawned : Bool
  error : Option StartError
deriving DecidableEq, Repr

/-- Model of the `--load-extension=` argument built in browser.py line 407. -/
def load_extension_arg (exts : List String) : String :=
  "--load-extension=" ++ String.intercalate "," exts

/-- Model of `Browser.start` (browser.py lines 365-423) up to the process spawn,
on a not-yet-started Browser.  `exe_exists` embeds
`pathlib.Path(...).exists()` and `fp` the port picked by
`util.free_port()`.  Steps, in source order: decide `connect_existing`
from `host`/`port` both set (lines 377-382, otherwise defaulting host to
127.0.0.1 and picking a free port); executable check only when not
attaching (lines 384-404); `add_argument` for extensions when any are
registered (lines 406-407); `add_argument('--lang=...')` when
`config.lang` is set (lines 409-410); spawn only when not attaching
(lines 421-423). -/
def start_model (exe_exists : String → Bool) (fp : Nat) (cfg : StartConfig) :
    StartTrace :=
  let connect_existing := cfg.host.isSome && cfg.port.isSome
  let host := if connect_existing then cfg.host.getD "" else "127.0.0.1"
  let port := if connect_existing then cfg.port.getD 0 else fp
  if !connect_existing && !(exe_exists cfg.browser_executable_path) then
    { host := host, port := port, checked_executable := true,
      spawned := false, error := some .fileNotFound }
  else
    match
      (if cfg.extensions.isEmpty then Except.ok cfg.browser_args
       else add_argument cfg.browser_args (load_extension_arg cfg.extensions)) with
    | Except.error msg =>
        { host := host, port := port, checked_executable := !connect_existing,
          spawned := false, error := some (.configError msg) }
    | Except.ok args1 =>
        match cfg.lang with
        | none =>
            { host := host, port := port, checked_executable := !connect_existing,
              spawned := !connect_existing, error := none }
        | some tag =>
            match add_argument args1 ("--lang=" ++ tag) with
            | Except.error msg =>
                { host := host, port := port,
                  checked_executable := !connect_existing,
                  spawned := false, error := some (.configError msg) }
            | Except.ok _ =>
                { host := host, port := port,
                  checked_executable := !connect_existing,
                  spawned := !connect_existing, error := none }

example :
    (start_model (fun _ => true) 9222
      { host := none, port := none, lang := none, extensions := [],
        browser_executable_path := "/usr/bin/chrome", browser_args := [] })
    = { host := "127.0.0.1", port := 9222, checked_executable := true,
        spawned := true, error := none } := by
  decide

/-- Model of `Browser.main_tab` (browser.py lines 163-170): raises `ValueError`
when `self.tabs` is empty, otherwise returns `self.tabs[0]`. -/
def main_tab (targets : List Tab) : Except String Tab :=
  match (browser_tabs targets).head? with
  | none => Except.error "Could not find any tabs"
  | some t => Except.ok t

/-- Model of the `Browser.__next__` loop (browser.py lines 648-662) over a fixed
tab list: return `tabs[i]` and advance `_i` until the index runs past
the end (`IndexError` → `StopIteration`). -/
def iter_from (l : List Tab) (i : Nat) : List Tab :=
  match h : l.get? i with
  | none => []
  | some t => t :: iter_from l (i + 1)
termination_by l.length - i
decreasing_by
  have hi : i < l.length := (List.get?_eq_some.mp h).choose
  exact Nat.sub_succ_lt_self _ _ hi

/-- Model of `Browser.__iter__` followed by exhausting `__next__` (browser.py
lines 638-662): `__iter__` evaluates `self.main_tab` (raising when there
are no page-type targets), sets `_i = self.tabs.index(main_tab)`, and
iteration then yields `tabs[_i], tabs[_i+1], ...`. -/
def browser_iterate (targets : List Tab) : Except String (List Tab) :=
  match main_tab targets with
  | Except.error e => Except.error e
  | Except.ok t =>
      Except.ok (iter_from (browser_tabs targets) ((browser_tabs targets).indexOf t))

/-- Model of `Browser.__reversed__` (browser.py lines 645-646):
`reversed(self.tabs)`. -/
def browser_reversed (targets : List Tab) : List Tab :=
  (browser_tabs targets).reverse

/-- The state of the root `Connection` that `Browser.stop` touches.
Modelled from the spec: `connection.py` is not under `src/`; per §4.C
"Close is idempotent", `aclose` marks the connection closed and a second
close is a no-op, and per §4.D a send on a closed connection fails
(an exception `stop` swallows). -/
structure ConnectionState where
  closed : Bool
deriving DecidableEq, Repr

/-- Model of `Connection.aclose`, modelled from the spec (§4.C: idempotent close). -/
def connection_aclose (c : ConnectionState) : ConnectionState :=
  { c with closed := true }

/-- The observable `Browser` state that `Browser.stop` (browser.py lines
664-702) reads and writes: the root connection, the process handle and
pid, and the temporary profile directory. -/
structure BrowserState where
  connection : Option ConnectionState
  process : Option Nat
  process_pid : Option Nat
  uses_custom_data_dir : Bool
  profile_dir_exists : Bool
deriving DecidableEq, Repr

/-- Model of `Browser._cleanup_temporary_profile` (browser.py lines 704-723):
returns immediately when a custom data dir is configured, otherwise
removes the temporary profile directory (removal failures are only
logged). -/
def cleanup_temporary_profile (s : BrowserState) : BrowserState :=
  if s.uses_custom_data_dir then s
  else { s with profile_dir_exists := false }

/-- Model of `Browser.stop` (browser.py lines 664-702): return immediately when
there is neither a connection nor a process; otherwise send
`browser.close` (exceptions swallowed) and `aclose` the connection when
one exists, terminate/kill the process and clear `_process` and
`_process_pid` when a process exists (`ProcessLookupError` swallowed),
and clean up the temporary profile.  `stop` never clears
`self.connection`. -/
def browser_stop (s : BrowserState) : BrowserState :=
  if s.connection.isNone && s.process.isNone then s
  else
    let s1 :=
      match s.connection with
      | none => s
      | some c => { s with connection := some (connection_aclose c) }
    let s2 :=
      match s1.process with
      | none => s1
      | some _ => { s1 with process := none, process_pid := none }
    cleanup_temporary_profile s2

/-- The single `asyncio.Lock()` allocated when the body of
`class Browser` executes (browser.py line 73:
`_update_target_info_mutex: asyncio.Lock = asyncio.Lock()` is an
assignment in the class body, evaluated once). -/
def class_update_target_info_mutex : Nat := 0

/-- A `Browser` Python object for attribute-lookup purposes: its identity
and the `_update_target_info_mutex` entry of its instance `__dict__`,
if any. -/
structure BrowserObject where
  oid : Nat
  instance_mutex : Option Nat
deriving DecidableEq, Repr

/-- Model of `Browser.__init__` (browser.py lines 125-152): assigns `config`,
`targets`, `info`, `_target`, `_process`, `_process_pid`, `_is_updating`
and `connection` on the instance — it never assigns
`_update_target_info_mutex`, so the instance `__dict__` has no entry for
it. -/
def browser_init (oid : Nat) : BrowserObject :=
  { oid := oid, instance_mutex := none }

/-- Python attribute lookup for `self._update_target_info_mutex`: the
instance `__dict__` first, falling back to the class attribute. -/
def update_target_info_mutex (b : BrowserObject) : Nat :=
  match b.instance_mutex with
  | some l => l
  | none => class_update_target_info_mutex

/-- The cookie fields `CookieJar.save`/`load` handle (a
`cdp.network.Cookie`; only its identity matters to the save path). -/
structure Cookie where
  name : String
  value : String
  domain : String
deriving DecidableEq, Repr

/-- Observable outcome of one `CookieJar.save` call: how many times the
cookie list was fetched over the connection, the pattern-filtered subset
the loop builds, and the list pickled to the file. -/
structure SaveResult where
  fetch_count : Nat
  included : List Cookie
  written : List Cookie
deriving DecidableEq, Repr

/-- Model of `CookieJar.save` (browser.py lines 800-853): fetches the cookies via
`connection.send(cdp.storage.get_cookies())` (line 832), then fetches
them again via `self.get_all(requests_cookie_format=False)` (line 841),
rebinding `cookies`; builds `included_cookies` by keeping each cookie
whose `str(cookie.__dict__)` the compiled pattern matches (lines
842-852); and finally pickles `cookies` — the unfiltered second fetch —
to the file (line 853).  `fetches n` is the server's reply to the n-th
fetch and `pat` embeds `compiled_pattern.finditer(...)` yielding at
least one match. -/
def cookiejar_save (fetches : Nat → List Cookie) (pat : Cookie → Bool) :
    SaveResult :=
  let cookies0 := fetches 0
  let cookies := fetches 1
  { fetch_count := 2,
    included := cookies.filter pat,
    written := cookies }

/-- Model of `CookieJar.load` (browser.py lines 855-889): unpickles the file's
cookie list, keeps the cookies matching the pattern, and passes them to
`set_all`. -/
def cookiejar_load (file_cookies : List Cookie) (pat : Cookie → Bool) :
    List Cookie :=
  file_cookies.filter pat

/-- The predicate compiled from the default pattern `'.*'`.  Modelled
from Python's `re`: `re.compile('.*').finditer(s)` yields a match on
every string, so every cookie is kept. -/
def dotstar_matches (_c : Cookie) : Bool := true

/-- C8: for every argument string passed to `Config.add_argument`, if the
lowercased string contains one of the reserved substrings (headless,
data-dir, data_dir, no-sandbox, no_sandbox, lang) a `ValueError` is
raised before the append so the argument list is unchanged; otherwise
the argument is appended to the user browser-args list. -/
theorem add_argument_reserved_check (args : List String) (arg : String) :
    ((reserved_config_args.any fun x => strContainsSub arg x) = true →
      add_argument args arg =
        Except.error
          ("\"" ++ arg
            ++ "\" not allowed. please use one of the attributes of the Config object to set it")) ∧
    ((reserved_config_args.any fun x => strContainsSub arg x) = false →
      add_argument args arg = Except.ok (args ++ [arg])) := by
  constructor <;> intro h <;> simp [add_argument, h]

/-- Witness for `add_argument_reserved_check`: a reserved argument is
rejected and a clean argument is appended. -/
theorem add_argument_reserved_check_witness :
    add_argument ["--a"] "--headless=new" =
      Except.error
        ("\"" ++ "--headless=new"
          ++ "\" not allowed. please use one of the attributes of the Config object to set it") ∧
    add_argument ["--a"] "--mute-audio" = Except.ok (["--a"] ++ ["--mute-audio"]) :=
  ⟨(add_argument_reserved_check ["--a"] "--headless=new").1 (by decide),
   (add_argument_reserved_check ["--a"] "--mute-audio").2 (by decide)⟩

/-- C10: `CookieJar.save` fetches the cookie list twice, computes the
pattern-filtered subset, but pickles the unfiltered (second) fetched
list regardless of the pattern, so a save followed by a load with
pattern `'.*'` restores every cookie. -/
theorem cookiejar_save_writes_unfiltered (fetches : Nat → List Cookie)
    (pat : Cookie → Bool) :
    (cookiejar_save fetches pat).written = fetches 1 ∧
    (cookiejar_save fetches pat).fetch_count = 2 ∧
    (cookiejar_save fetches pat).included = (fetches 1).filter pat ∧
    cookiejar_load (cookiejar_save fetches pat).written dotstar_matches = fetches 1 := by
  refine ⟨rfl, rfl, rfl, ?_⟩
  simp [cookiejar_save, cookiejar_load, dotstar_matches]

/-- C9 counterexample: two distinct `Browser` instances resolve
`_update_target_info_mutex` to the same lock object, refuting the claim
that each instance owns its own mutex. -/
theorem browser_mutex_shared_counterexample :
    browser_init 1 ≠ browser_init 2 ∧
    update_target_info_mutex (browser_init 1) =
      update_target_info_mutex (browser_init 2) := by
  decide

/-- C9 (amended): `_update_target_info_mutex` is a single class-level
lock, allocated once when the class body runs; `__init__` never shadows
it, so every `Browser` instance resolves the attribute to that one lock
and registry updates of different Browsers serialize on it. -/
theorem browser_mutex_is_class_level (i j : Nat) :
    update_target_info_mutex (browser_init i) = class_update_target_info_mutex ∧
    update_target_info_mutex (browser_init i) =
      update_target_info_mutex (browser_init j) :=
  ⟨rfl, rfl⟩

/-- C5: `Browser.stop` is idempotent on the observable state (connection,
process handle, pid, profile directory); a second call returns without
effect.  All exceptions on the stop path are swallowed in the source, so
the embedding is a total state transformer. -/
theorem browser_stop_idempotent (s : BrowserState) :
    browser_stop (browser_stop s) = browser_stop s := by
  rcases s with ⟨conn, proc, pid, custom, profile⟩
  cases conn <;> cases proc <;> cases custom <;>
    simp [browser_stop, cleanup_temporary_profile, connection_aclose]

/-- The substring `"lang"` occurs in `"--lang=" ++ tag` for every tag. -/
theorem lang_always_contained (tag : String) :
    strContainsSub ("--lang=" ++ tag) "lang" = true := by
  unfold strContainsSub lowerData
  simp only [String.data_append, List.map_append, decide_eq_true_eq]
  have h0 : "lang".data <:+: "--lang=".data.map Char.toLower := by decide
  exact h0.trans (("--lang=".data.map Char.toLower).prefix_append
    (tag.data.map Char.toLower)).isInfix

/-- Lemma: `Config.add_argument` rejects the `--lang=<tag>` flag for every tag,
because the reserved-substring check matches `"lang"`. -/
theorem add_argument_lang_rejected (args : List String) (tag : String) :
    add_argument args ("--lang=" ++ tag) =
      Except.error
        ("\"" ++ ("--lang=" ++ tag)
          ++ "\" not allowed. please use one of the attributes of the Config object to set it") := by
  unfold add_argument
  rw [if_pos]
  rw [List.any_eq_true]
  exact ⟨"lang", by simp [reserved_config_args], lang_always_contained tag⟩

/-- C2: for every config whose `lang` option is set, `Browser.start`
never reaches the spawn and always raises — the internal
`add_argument('--lang=<tag>')` call (browser.py lines 409-410) is
rejected by the reserved-substring check of `Config.add_argument`
(config.py lines 232-247), which forbids any argument containing
`"lang"`.  The claim that start adds the flag and proceeds to launch is
contradicted by the code. -/
theorem start_with_lang_always_raises (exe_exists : String → Bool) (fp : Nat)
    (cfg : StartConfig) (tag : String) (h : cfg.lang = some tag) :
    (start_model exe_exists fp cfg).spawned = false ∧
    (start_model exe_exists fp cfg).error ≠ none := by
  unfold start_model
  rw [h]
  simp only [add_argument_lang_rejected]
  constructor
  · split
    · rfl
    · split
      · rfl
      · rfl
  · split
    · simp
    · split
      · simp
      · simp

/-- Witness for `start_with_lang_always_raises`: a default-style config
with `lang='en-US'` fails to launch. -/
theorem start_with_lang_always_raises_witness :
    (start_model (fun _ => true) 9222
      { host := none, port := none, lang := some "en-US", extensions := [],
        browser_executable_path := "/usr/bin/chrome",
        browser_args := [] }).spawned = false ∧
    (start_model (fun _ => true) 9222
      { host := none, port := none, lang := some "en-US", extensions := [],
        browser_executable_path := "/usr/bin/chrome",
        browser_args := [] }).error ≠ none :=
  start_with_lang_always_raises (fun _ => true) 9222
    { host := none, port := none, lang := some "en-US", extensions := [],
      browser_executable_path := "/usr/bin/chrome", browser_args := [] }
    "en-US" rfl

/-- C6 counterexample: with `host` and `port` both missing but
`lang='en-US'` set and the executable present, `Browser.start` raises in
`Config.add_argument` before spawning, so "a process is spawned" fails
as universally stated. -/
theorem start_spawn_counterexample :
    (start_model (fun _ => true) 9222
      { host := none, port := none, lang := some "en-US", extensions := [],
        browser_executable_path := "/usr/bin/chrome",
        browser_args := [] }).spawned = false ∧
    (start_model (fun _ => true) 9222
      { host := none, port := none, lang := some "en-US", extensions := [],
        browser_executable_path := "/usr/bin/chrome",
        browser_args := [] }).error =
      some (.configError
        "\"--lang=en-US\" not allowed. please use one of the attributes of the Config object to set it") := by
  decide

/-- C6 (amended): when both `host` and `port` are supplied, `start`
spawns no process and performs no executable check; when at least one is
missing, `host` is set to 127.0.0.1, a free local port is chosen and the
executable check runs, and a process is spawned provided argument
assembly does not raise first and the executable exists. -/
theorem start_spawn_decision (exe_exists : String → Bool) (fp : Nat)
    (cfg : StartConfig) :
    (cfg.host.isSome ∧ cfg.port.isSome →
       (start_model exe_exists fp cfg).spawned = false ∧
       (start_model exe_exists fp cfg).checked_executable = false) ∧
    (¬(cfg.host.isSome ∧ cfg.port.isSome) →
       (start_model exe_exists fp cfg).host = "127.0.0.1" ∧
       (start_model exe_exists fp cfg).port = fp ∧
       (start_model exe_exists fp cfg).checked_executable = true ∧
       (cfg.lang = none → cfg.extensions = [] →
         exe_exists cfg.browser_executable_path = true →
         (start_model exe_exists fp cfg).spawned = true ∧
         (start_model exe_exists fp cfg).error = none)) := by
  constructor
  · intro h
    have hce : (cfg.host.isSome && cfg.port.isSome) = true := by
      simp [h.1, h.2]
    unfold start_model
    simp only [hce, Bool.not_true, Bool.false_and, Bool.false_eq_true, if_false]
    constructor
    · split
      · rfl
      · split
        · rfl
        · split <;> rfl
    · split
      · rfl
      · split
        · rfl
        · split <;> rfl
  · intro h
    have hce : (cfg.host.isSome && cfg.port.isSome) = false := by
      cases h3 : cfg.host.isSome <;> cases h4 : cfg.port.isSome <;> simp_all
    have hsplit :
        (start_model exe_exists fp cfg).host = "127.0.0.1" ∧
        (start_model exe_exists fp cfg).port = fp ∧
        (start_model exe_exists fp cfg).checked_executable = true := by
      unfold start_model
      simp only [hce, Bool.not_false, Bool.false_eq_true, if_false]
      refine ⟨?_, ?_, ?_⟩ <;>
        · split
          · rfl
          · split
            · rfl
            · split
              · rfl
              · split <;> rfl
    refine ⟨hsplit.1, hsplit.2.1, hsplit.2.2, ?_⟩
    intro hlang hext hexe
    unfold start_model
    simp [hce, hlang, hext, hexe]

/-- Witness for `start_spawn_decision`: attaching to a running instance
does not spawn, and a default spawn-mode config does. -/
theorem start_spawn_decision_witness :
    (start_model (fun _ => true) 9222
        { host := some "127.0.0.1", port := some 9000, lang := none,
          extensions := [], browser_executable_path := "/usr/bin/chrome",
          browser_args := [] }).spawned = false ∧
    (start_model (fun _ => true) 9222
        { host := none, port := none, lang := none, extensions := [],
          browser_executable_path := "/usr/bin/chrome",
          browser_args := [] }).spawned = true :=
  ⟨((start_spawn_decision (fun _ => true) 9222
      { host := some "127.0.0.1", port := some 9000, lang := none,
        extensions := [], browser_executable_path := "/usr/bin/chrome",
        browser_args := [] }).1 ⟨by decide, by decide⟩).1,
   (((start_spawn_decision (fun _ => true) 9222
      { host := none, port := none, lang := none, extensions := [],
        browser_executable_path := "/usr/bin/chrome",
        browser_args := [] }).2 (by decide)).2.2.2 rfl rfl rfl).1⟩

/-- Exhausting the `__next__` loop from index `i` yields the suffix of
the tab list from `i`. -/
theorem iter_from_eq_drop (l : List Tab) (i : Nat) : iter_from l i = l.drop i := by
  induction i using iter_from.induct l with
  | case1 i h =>
      rw [iter_from, h]
      have hi : l.length ≤ i := List.get?_eq_none.mp h
      simp [List.drop_eq_nil_of_le hi]
  | case2 i t h ih =>
      rw [iter_from, h]
      have hi : i < l.length := (List.get?_eq_some.mp h).choose
      rw [List.drop_eq_get_cons hi]
      have ht : l.get ⟨i, hi⟩ = t := by
        have hg := List.get?_eq_get hi
        rw [hg] at h
        exact Option.some.inj h
      rw [ht, ih]

/-- C7 counterexample: on a Browser with zero page-type targets,
`__iter__` evaluates `main_tab`, which raises `ValueError` instead of
yielding an empty iteration, so iterating is not raise-free as claimed.
(`__reversed__` by contrast yields nothing.) -/
theorem browser_iterate_empty_raises :
    browser_iterate [] = Except.error "Could not find any tabs" ∧
    browser_reversed [] = [] := by
  constructor <;> rfl

/-- C7 (amended): on a Browser with at least one page-type target,
iteration yields exactly the page-type records in creation order and
reversed iteration yields them in reverse order; with zero page-type
targets `__iter__` raises `ValueError` (while reversed iteration yields
nothing). -/
theorem browser_iterate_pages (targets : List Tab)
    (h : browser_tabs targets ≠ []) :
    browser_iterate targets = Except.ok (browser_tabs targets) ∧
    browser_reversed targets = (browser_tabs targets).reverse := by
  refine ⟨?_, rfl⟩
  unfold browser_iterate main_tab
  cases hcons : browser_tabs targets with
  | nil => exact absurd hcons h
  | cons t rest =>
      simp only [List.head?_cons]
      rw [List.indexOf_cons_self, iter_from_eq_drop]
      rfl

/-- Witness for `browser_iterate_pages`: a registry holding one worker
and two pages iterates over exactly the two pages, in order. -/
theorem browser_iterate_pages_witness :
    browser_iterate
        [mkTab "127.0.0.1" 1 ⟨"w1", "worker", "", "", false⟩,
         mkTab "127.0.0.1" 1 ⟨"p1", "page", "", "", false⟩,
         mkTab "127.0.0.1" 1 ⟨"p2", "page", "", "", false⟩] =
      Except.ok
        (browser_tabs
          [mkTab "127.0.0.1" 1 ⟨"w1", "worker", "", "", false⟩,
           mkTab "127.0.0.1" 1 ⟨"p1", "page", "", "", false⟩,
           mkTab "127.0.0.1" 1 ⟨"p2", "page", "", "", false⟩]) ∧
    browser_reversed
        [mkTab "127.0.0.1" 1 ⟨"w1", "worker", "", "", false⟩,
         mkTab "127.0.0.1" 1 ⟨"p1", "page", "", "", false⟩,
         mkTab "127.0.0.1" 1 ⟨"p2", "page", "", "", false⟩] =
      (browser_tabs
          [mkTab "127.0.0.1" 1 ⟨"w1", "worker", "", "", false⟩,
           mkTab "127.0.0.1" 1 ⟨"p1", "page", "", "", false⟩,
           mkTab "127.0.0.1" 1 ⟨"p2", "page", "", "", false⟩]).reverse :=
  browser_iterate_pages
    [mkTab "127.0.0.1" 1 ⟨"w1", "worker", "", "", false⟩,
     mkTab "127.0.0.1" 1 ⟨"p1", "page", "", "", false⟩,
     mkTab "127.0.0.1" 1 ⟨"p2", "page", "", "", false⟩]
    (by decide)

/-- One `update_or_create` step keeps every existing position: the record
at index `i` keeps its target-id and its websocket url (a merge replaces
only the target info), and is left fully untouched unless its id is the
server target's id. -/
theorem update_or_create_get? (host : String) (port : Nat) (l : List Tab)
    (info : TargetInfo) (i : Nat) (r : Tab) (h : l.get? i = some r) :
    ∃ s, (update_or_create host port l info).get? i = some s ∧
      s.target_id = r.target_id ∧
      s.websocket_url = r.websocket_url ∧
      (r.target_id ≠ info.target_id → s = r) := by
  induction l generalizing i with
  | nil => simp at h
  | cons t rest ih =>
      cases i with
      | zero =>
          simp only [List.get?] at h
          injection h with h2
          subst h2
          unfold update_or_create
          by_cases ht : (t.target_id == info.target_id) = true
          · rw [if_pos ht]
            refine ⟨{ t with target := info }, rfl, ?_, rfl, ?_⟩
            · have heq : t.target_id = info.target_id := by
                simpa using ht
              exact heq.symm
            · intro hne
              exact absurd (by simpa using ht) hne
          · rw [if_neg ht]
            exact ⟨t, rfl, rfl, rfl, fun _ => rfl⟩
      | succ n =>
          simp only [List.get?] at h
          unfold update_or_create
          by_cases ht : (t.target_id == info.target_id) = true
          · rw [if_pos ht]
            exact ⟨r, h, rfl, rfl, fun _ => rfl⟩
          · rw [if_neg ht]
            rcases ih n h with ⟨s, hs, hid, hws, hfix⟩
            exact ⟨s, hs, hid, hws, hfix⟩

/-- After one `update_or_create` step the server target's id is present
in the registry (either merged into the matching record or appended). -/
theorem update_or_create_mem_id (host : String) (port : Nat) (l : List Tab)
    (info : TargetInfo) :
    ∃ s ∈ update_or_create host port l info, s.target_id = info.target_id := by
  induction l with
  | nil =>
      exact ⟨mkTab host port info, by simp [update_or_create], rfl⟩
  | cons t rest ih =>
      unfold update_or_create
      by_cases ht : (t.target_id == info.target_id) = true
      · rw [if_pos ht]
        exact ⟨{ t with target := info }, by simp, rfl⟩
      · rw [if_neg ht]
        rcases ih with ⟨s, hmem, hid⟩
        exact ⟨s, by simp [hmem], hid⟩

/-- A created event appends exactly the event's target-id to the id list. -/
theorem map_id_handle_target_created (host : String) (port : Nat)
    (targets : List Tab) (info : TargetInfo) :
    (handle_target_created host port targets info).map Tab.target_id =
      targets.map Tab.target_id ++ [info.target_id] := by
  simp [handle_target_created, mkTab, Tab.target_id]

/-- An info-changed event never changes the id list: the record it
rewrites matched the event's target-id. -/
theorem map_id_handle_target_info_changed (targets : List Tab)
    (info : TargetInfo) :
    (handle_target_info_changed targets info).map Tab.target_id =
      targets.map Tab.target_id := by
  induction targets with
  | nil => rfl
  | cons t rest ih =>
      unfold handle_target_info_changed
      by_cases ht : (t.type_ == "page" && t.target_id == info.target_id) = true
      · rw [if_pos ht]
        have hid : t.target_id = info.target_id := by
          have := (Bool.and_eq_true _ _).mp ht
          simpa using this.2
        simp [List.map_cons, Tab.target_id]
        exact hid.symm
      · rw [if_neg ht]
        simp [List.map_cons, ih]

/-- Destroyed and crashed events only ever remove a record. -/
theorem handle_target_destroyed_sublist (targets : List Tab) (tid : String) :
    List.Sublist (handle_target_destroyed targets tid) targets := by
  unfold handle_target_destroyed
  cases get_target_by_id targets tid with
  | none => exact List.Sublist.refl targets
  | some t => exact targets.erase_sublist t

/-- Crashed events only ever remove a record. -/
theorem handle_target_crashed_sublist (targets : List Tab) (tid : String) :
    List.Sublist (handle_target_crashed targets tid) targets := by
  unfold handle_target_crashed
  cases get_target_by_id targets tid with
  | none => exact List.Sublist.refl targets
  | some t => exact targets.erase_sublist t

/-- The id list after one `update_or_create` step: unchanged when some
record already carries the server target's id, otherwise extended by it. -/
theorem map_id_update_or_create (host : String) (port : Nat) (l : List Tab)
    (info : TargetInfo) :
    (update_or_create host port l info).map Tab.target_id =
      (if l.any (fun t => t.target_id == info.target_id) then
        l.map Tab.target_id
      else
        l.map Tab.target_id ++ [info.target_id]) := by
  induction l with
  | nil => simp [update_or_create, mkTab, Tab.target_id]
  | cons t rest ih =>
      unfold update_or_create
      by_cases ht : (t.target_id == info.target_id) = true
      · rw [if_pos ht]
        have hany : ((t :: rest).any fun x => x.target_id == info.target_id) = true := by
          simp [List.any_cons, ht]
        rw [if_pos hany]
        have hid : t.target_id = info.target_id := by simpa using ht
        simp only [List.map_cons]
        congr 1
        exact hid.symm
      · rw [if_neg ht]
        by_cases hr : (rest.any fun x => x.target_id == info.target_id) = true
        · simp [List.map_cons, ih, List.any_cons, ht, hr]
        · simp [List.map_cons, ih, List.any_cons, ht, hr]

/-- One `update_or_create` step preserves distinctness of target-ids. -/
theorem nodup_update_or_create (host : String) (port : Nat) (l : List Tab)
    (info : TargetInfo)
    (h : (l.map Tab.target_id).Nodup) :
    ((update_or_create host port l info).map Tab.target_id).Nodup := by
  rw [map_id_update_or_create]
  split
  · exact h
  · rename_i hany
    have hnotin : info.target_id ∉ l.map Tab.target_id := by
      intro hmem
      rcases List.mem_map.mp hmem with ⟨t, htl, hid⟩
      have : l.any (fun t => t.target_id == info.target_id) = true :=
        List.any_eq_true.mpr ⟨t, htl, by simp [hid]⟩
      exact hany this
    simp [List.nodup_append, h, hnotin]

/-- Lemma: `update_targets` preserves distinctness of target-ids. -/
theorem nodup_update_targets (host : String) (port : Nat) (l : List Tab)
    (server : List TargetInfo)
    (h : (l.map Tab.target_id).Nodup) :
    ((update_targets host port l server).map Tab.target_id).Nodup := by
  induction server generalizing l with
  | nil => exact h
  | cons info rest ih =>
      exact ih (update_or_create host port l info) (nodup_update_or_create host port l info h)

/-- The registry states reachable from an empty registry by the five
registry operations of `browser.py`, with the side condition that each
created event carries a target-id not already present (Chrome allocates
fresh target-ids; `_handle_target_created` itself never checks). -/
inductive ReachableRegistry (host : String) (port : Nat) : List Tab → Prop where
  | empty : ReachableRegistry host port []
  | created {s : List Tab} {info : TargetInfo}
      (fresh : info.target_id ∉ s.map Tab.target_id)
      (hs : ReachableRegistry host port s) :
      ReachableRegistry host port (handle_target_created host port s info)
  | info_changed {s : List Tab} (info : TargetInfo)
      (hs : ReachableRegistry host port s) :
      ReachableRegistry host port (handle_target_info_changed s info)
  | destroyed {s : List Tab} (tid : String)
      (hs : ReachableRegistry host port s) :
      ReachableRegistry host port (handle_target_destroyed s tid)
  | crashed {s : List Tab} (tid : String)
      (hs : ReachableRegistry host port s) :
      ReachableRegistry host port (handle_target_crashed s tid)
  | updated {s : List Tab} (server : List TargetInfo)
      (hs : ReachableRegistry host port s) :
      ReachableRegistry host port (update_targets host port s server)

/-- C3 (amended): in every registry state reachable from the empty
registry by the five registry operations, no two records share a
target-id — provided every created event carries a target-id not already
in the registry.  (Without that proviso the invariant fails:
`_handle_target_created` appends unconditionally, see the
counterexample.) -/
theorem reachable_registry_ids_nodup (host : String) (port : Nat)
    (s : List Tab) (h : ReachableRegistry host port s) :
    (s.map Tab.target_id).Nodup := by
  induction h with
  | empty => simp
  | created fresh hs ih =>
      rw [map_id_handle_target_created]
      simp [List.nodup_append, ih, *]
  | info_changed info hs ih =>
      rw [map_id_handle_target_info_changed]
      exact ih
  | destroyed tid hs ih =>
      exact ((handle_target_destroyed_sublist _ tid).map Tab.target_id).nodup ih
  | crashed tid hs ih =>
      exact ((handle_target_crashed_sublist _ tid).map Tab.target_id).nodup ih
  | updated server hs ih =>
      exact nodup_update_targets host port _ server ih

/-- Witness for `reachable_registry_ids_nodup`: the registry after two
fresh created events has distinct ids. -/
theorem reachable_registry_ids_nodup_witness :
    ((handle_target_created "127.0.0.1" 1
        (handle_target_created "127.0.0.1" 1 [] ⟨"t1", "page", "", "", false⟩)
        ⟨"t2", "page", "", "", false⟩).map Tab.target_id).Nodup :=
  reachable_registry_ids_nodup "127.0.0.1" 1 _
    (ReachableRegistry.created (by decide)
      (ReachableRegistry.created (by decide) ReachableRegistry.empty))

/-- C3 counterexample: with arbitrary event payloads the invariant fails —
two created events carrying the same target-id (as the claim's "arbitrary
event payloads" allows) leave the registry with two records sharing an
id, because `_handle_target_created` appends without any duplicate
check. -/
theorem registry_duplicate_ids_counterexample :
    ¬ (((handle_target_created "127.0.0.1" 1
          (handle_target_created "127.0.0.1" 1 [] ⟨"t1", "page", "", "", false⟩)
          ⟨"t1", "page", "", "", false⟩).map Tab.target_id).Nodup) := by
  decide

/-- Under distinct target-ids, `get_target_by_id` finds a page-type
record that is in the registry. -/
theorem get_target_by_id_of_page_mem (l : List Tab) (tid : String) (r : Tab)
    (hnd : (l.map Tab.target_id).Nodup) (hr : r ∈ l) (hid : r.target_id = tid)
    (hty : r.type_ = "page") : get_target_by_id l tid = some r := by
  induction l with
  | nil => simp at hr
  | cons t rest ih =>
      unfold get_target_by_id
      by_cases hp : (t.type_ == "page" && t.target_id == tid) = true
      · rw [List.filter_cons, if_pos hp]
        simp only [List.head?_cons]
        have htid : t.target_id = tid := by
          have hand := (Bool.and_eq_true _ _).mp hp
          simpa using hand.2
        have hteq : t = r :=
          List.inj_on_of_nodup_map hnd (List.mem_cons_self _ _) hr
            (by rw [htid, hid])
        rw [hteq]
      · have hpr : (r.type_ == "page" && r.target_id == tid) = true := by
          simp [hty, hid]
        have hrt : r ≠ t := by
          intro he
          rw [he] at hpr
          exact hp hpr
        have hr2 : r ∈ rest := by
          rcases List.mem_cons.mp hr with he | h2
          · exact absurd he hrt
          · exact h2
        have hnd2 : (rest.map Tab.target_id).Nodup := by
          rw [List.map_cons, List.nodup_cons] at hnd
          exact hnd.2
        rw [List.filter_cons, if_neg hp]
        exact ih hnd2 hr2

/-- When no page-type record carries the id, `get_target_by_id` finds
nothing (even when non-page records carry the id). -/
theorem get_target_by_id_eq_none (l : List Tab) (tid : String)
    (h : ∀ r ∈ l, r.target_id = tid → r.type_ ≠ "page") :
    get_target_by_id l tid = none := by
  unfold get_target_by_id
  have hnil : (l.filter fun t => t.type_ == "page" && t.target_id == tid) = [] := by
    rw [List.filter_eq_nil_iff]
    intro t htl hp
    have hand := (Bool.and_eq_true _ _).mp hp
    have h1 : t.type_ = "page" := by simpa using hand.1
    have h2 : t.target_id = tid := by simpa using hand.2
    exact (h t htl h2) h1
  rw [hnil]
  rfl

/-- C1 (amended): for a registry with distinct target-ids, handling a
`target.Target-Destroyed` or `target.Target-Crashed` event removes the
record with the event's target-id when that record's type is `"page"`
(afterwards no record carries the id); when the record is of any other
type (iframe, worker, background) `get_target_by_id` does not find it
and the handler leaves the registry unchanged. -/
theorem handle_destroyed_crashed_page_only (targets : List Tab) (tid : String) :
    ((targets.map Tab.target_id).Nodup →
      ∀ r ∈ targets, r.target_id = tid → r.type_ = "page" →
        handle_target_destroyed targets tid = targets.erase r ∧
        handle_target_crashed targets tid = targets.erase r ∧
        (handle_target_destroyed targets tid).length + 1 = targets.length ∧
        ∀ s ∈ handle_target_destroyed targets tid, s.target_id ≠ tid) ∧
    ((∀ r ∈ targets, r.target_id = tid → r.type_ ≠ "page") →
      handle_target_destroyed targets tid = targets ∧
      handle_target_crashed targets tid = targets) := by
  constructor
  · intro hnd r hr hid hty
    have hget : get_target_by_id targets tid = some r :=
      get_target_by_id_of_page_mem targets tid r hnd hr hid hty
    have hd : handle_target_destroyed targets tid = targets.erase r := by
      unfold handle_target_destroyed
      rw [hget]
    have hc : handle_target_crashed targets tid = targets.erase r := by
      unfold handle_target_crashed
      rw [hget]
    refine ⟨hd, hc, ?_, ?_⟩
    · rw [hd, List.length_erase_of_mem hr]
      have hpos : 0 < targets.length := List.length_pos.mpr (List.ne_nil_of_mem hr)
      omega
    · intro s hs
      rw [hd] at hs
      have hndl : targets.Nodup := List.Nodup.of_map _ hnd
      have hmem := (List.Nodup.mem_erase_iff hndl).mp hs
      intro hsid
      have hser : s = r :=
        List.inj_on_of_nodup_map hnd hmem.2 hr (by rw [hsid, hid])
      exact hmem.1 hser
  · intro h
    have hget : get_target_by_id targets tid = none :=
      get_target_by_id_eq_none targets tid h
    refine ⟨?_, ?_⟩
    · unfold handle_target_destroyed
      rw [hget]
    · unfold handle_target_crashed
      rw [hget]

/-- Witness for `handle_destroyed_crashed_page_only`: destroying the only
page record empties the registry, while destroying a worker record is a
no-op. -/
theorem handle_destroyed_crashed_page_only_witness :
    handle_target_destroyed [mkTab "127.0.0.1" 1 ⟨"p1", "page", "", "", false⟩] "p1"
      = [mkTab "127.0.0.1" 1 ⟨"p1", "page", "", "", false⟩].erase
          (mkTab "127.0.0.1" 1 ⟨"p1", "page", "", "", false⟩) ∧
    handle_target_destroyed [mkTab "127.0.0.1" 1 ⟨"w1", "worker", "", "", false⟩] "w1"
      = [mkTab "127.0.0.1" 1 ⟨"w1", "worker", "", "", false⟩] :=
  ⟨((handle_destroyed_crashed_page_only
      [mkTab "127.0.0.1" 1 ⟨"p1", "page", "", "", false⟩] "p1").1
      (by decide) (mkTab "127.0.0.1" 1 ⟨"p1", "page", "", "", false⟩)
      (by decide) rfl rfl).1,
   ((handle_destroyed_crashed_page_only
      [mkTab "127.0.0.1" 1 ⟨"w1", "worker", "", "", false⟩] "w1").2
      (by decide)).1⟩

/-- C1 counterexample: a worker-type record whose destruction the browser
has signalled stays in the registry — `_handle_target_destroyed` looks
the record up with `get_target_by_id`, which only considers records with
`type_ == 'page'`, so for any non-page record the handler logs an error
and removes nothing. -/
theorem handle_destroyed_nonpage_counterexample :
    handle_target_destroyed
        [mkTab "127.0.0.1" 1 ⟨"w1", "worker", "", "", false⟩] "w1"
      = [mkTab "127.0.0.1" 1 ⟨"w1", "worker", "", "", false⟩] ∧
    handle_target_crashed
        [mkTab "127.0.0.1" 1 ⟨"w1", "worker", "", "", false⟩] "w1"
      = [mkTab "127.0.0.1" 1 ⟨"w1", "worker", "", "", false⟩] ∧
    (mkTab "127.0.0.1" 1 ⟨"w1", "worker", "", "", false⟩).target_id = "w1" := by
  refine ⟨by decide, by decide, rfl⟩

/-- When no record carries the server target's id, the `for` loop's
`else` runs: `update_or_create` appends a freshly built `Tab` carrying
the server's target info. -/
theorem update_or_create_of_not_mem (host : String) (port : Nat)
    (l : List Tab) (info : TargetInfo)
    (h : ∀ r ∈ l, r.target_id ≠ info.target_id) :
    update_or_create host port l info = l ++ [mkTab host port info] := by
  induction l with
  | nil => rfl
  | cons t rest ih =>
      have hne := h t (List.mem_cons_self _ _)
      unfold update_or_create
      rw [if_neg (by simpa using hne)]
      rw [ih (fun r hr => h r (List.mem_cons_of_mem _ hr))]
      rfl

/-- When the record at index `i` is the first one carrying the server
target's id, `update_or_create` replaces exactly its target info with
the server's. -/
theorem update_or_create_get?_merge (host : String) (port : Nat)
    (l : List Tab) (info : TargetInfo) :
    ∀ (i : Nat) (r : Tab), l.get? i = some r →
      r.target_id = info.target_id →
      (∀ k, k < i → ∀ rk, l.get? k = some rk → rk.target_id ≠ info.target_id) →
      (update_or_create host port l info).get? i = some { r with target := info } := by
  induction l with
  | nil => intro i r h _ _; simp at h
  | cons t rest ih =>
      intro i r h hid hfirst
      cases i with
      | zero =>
          simp only [List.get?] at h
          injection h with h2
          subst h2
          unfold update_or_create
          rw [if_pos (by simpa using hid)]
          rfl
      | succ n =>
          have hne : t.target_id ≠ info.target_id :=
            hfirst 0 (Nat.succ_pos n) t rfl
          unfold update_or_create
          rw [if_neg (by simpa using hne)]
          simp only [List.get?] at h ⊢
          exact ih n r h hid
            (fun k hk rk hrk => hfirst (k + 1) (Nat.succ_lt_succ hk) rk hrk)

/-- Every position of `update_or_create`'s result is either an original
position or the appended record built from the server target (the
latter only when no record matched). -/
theorem update_or_create_get?_inv (host : String) (port : Nat)
    (l : List Tab) (info : TargetInfo) :
    ∀ (i : Nat) (s : Tab), (update_or_create host port l info).get? i = some s →
      (∃ r, l.get? i = some r) ∨
      (s = mkTab host port info ∧ i = l.length ∧
        ∀ r ∈ l, r.target_id ≠ info.target_id) := by
  induction l with
  | nil =>
      intro i s h
      unfold update_or_create at h
      cases i with
      | zero =>
          right
          simp only [List.get?] at h
          injection h with h2
          exact ⟨h2.symm, rfl, by simp⟩
      | succ n => simp [List.get?] at h
  | cons t rest ih =>
      intro i s h
      unfold update_or_create at h
      by_cases ht : (t.target_id == info.target_id) = true
      · rw [if_pos ht] at h
        cases i with
        | zero => exact Or.inl ⟨t, rfl⟩
        | succ n =>
            simp only [List.get?] at h ⊢
            exact Or.inl ⟨s, h⟩
      · rw [if_neg ht] at h
        cases i with
        | zero => exact Or.inl ⟨t, rfl⟩
        | succ n =>
            simp only [List.get?] at h ⊢
            rcases ih n s h with ⟨r, hr⟩ | ⟨hs, hn, hall⟩
            · exact Or.inl ⟨r, hr⟩
            · refine Or.inr ⟨hs, by simp [hn], ?_⟩
              intro r hrm
              rcases List.mem_cons.mp hrm with he | h2
              · subst he
                simpa using ht
              · exact hall r h2

/-- One `update_or_create` step never shrinks the registry. -/
theorem update_or_create_length_le (host : String) (port : Nat)
    (l : List Tab) (info : TargetInfo) :
    l.length ≤ (update_or_create host port l info).length := by
  induction l with
  | nil => simp [update_or_create]
  | cons t rest ih =>
      unfold update_or_create
      by_cases ht : (t.target_id == info.target_id) = true
      · rw [if_pos ht]
        simp
      · rw [if_neg ht]
        simpa using ih

/-- Across a whole reconciliation, every existing position keeps a
record with its target-id and websocket url, unchanged when its id is
not mentioned in the reply (no record is ever deleted). -/
theorem update_targets_get? (host : String) (port : Nat)
    (server : List TargetInfo) :
    ∀ (registry : List Tab) (i : Nat) (r : Tab), registry.get? i = some r →
      ∃ s, (update_targets host port registry server).get? i = some s ∧
        s.target_id = r.target_id ∧
        s.websocket_url = r.websocket_url ∧
        ((∀ info ∈ server, info.target_id ≠ r.target_id) → s = r) := by
  induction server with
  | nil =>
      intro registry i r h
      exact ⟨r, h, rfl, rfl, fun _ => rfl⟩
  | cons info rest ih =>
      intro registry i r h
      rcases update_or_create_get? host port registry info i r h with
        ⟨s1, h1, hid1, hws1, hfix1⟩
      rcases ih (update_or_create host port registry info) i s1 h1 with
        ⟨s2, h2, hid2, hws2, hfix2⟩
      refine ⟨s2, h2, hid2.trans hid1, hws2.trans hws1, ?_⟩
      intro hnone
      have hinf : info.target_id ≠ r.target_id :=
        hnone info (List.mem_cons_self info rest)
      have hs1 : s1 = r := hfix1 (Ne.symm hinf)
      have hs2 : s2 = s1 := by
        apply hfix2
        intro j hj
        rw [hs1]
        exact hnone j (List.mem_cons_of_mem _ hj)
      exact hs2.trans hs1

/-- After a reconciliation every server target's id is present in the
registry, with no distinctness assumptions. -/
theorem update_targets_mem_id (host : String) (port : Nat)
    (server : List TargetInfo) :
    ∀ (registry : List Tab), ∀ info ∈ server,
      ∃ s ∈ update_targets host port registry server,
        s.target_id = info.target_id := by
  induction server with
  | nil => intro registry info hmem; simp at hmem
  | cons info rest ih =>
      intro registry info2 hmem
      rcases List.mem_cons.mp hmem with heq | hmem2
      · subst heq
        rcases update_or_create_mem_id host port registry info2 with ⟨s1, hmem1, hid1⟩
        rcases List.mem_iff_get?.mp hmem1 with ⟨n, hn⟩
        rcases update_targets_get? host port rest
            (update_or_create host port registry info2) n s1 hn with ⟨s2, h2, hid2, _, _⟩
        exact ⟨s2, List.get?_mem h2, hid2.trans hid1⟩
      · exact ih (update_or_create host port registry info) info2 hmem2

/-- Each server target is either merged — the record carrying its id
ends up with exactly the server's target info, at its original position —
or, when no record carries its id, appended past the original records as
a freshly built `Tab` holding the server's target info.  (Distinct ids
on both sides, the registry invariant and the shape of a `get-Targets`
reply, make "the matching record" well defined.) -/
theorem update_targets_merge_or_append (host : String) (port : Nat)
    (server : List TargetInfo) :
    ∀ (registry : List Tab),
      (registry.map Tab.target_id).Nodup →
      (server.map TargetInfo.target_id).Nodup →
      ∀ info ∈ server,
        (∃ i r, registry.get? i = some r ∧ r.target_id = info.target_id ∧
           (update_targets host port registry server).get? i =
             some { r with target := info }) ∨
        ((∀ r ∈ registry, r.target_id ≠ info.target_id) ∧
         ∃ j, registry.length ≤ j ∧
           (update_targets host port registry server).get? j =
             some (mkTab host port info)) := by
  induction server with
  | nil => intro registry _ _ info hmem; simp at hmem
  | cons info rest ih =>
      intro registry hndR hndS info2 hmem2
      have hndS2 : (rest.map TargetInfo.target_id).Nodup := by
        rw [List.map_cons, List.nodup_cons] at hndS
        exact hndS.2
      have hinfoNot : info.target_id ∉ rest.map TargetInfo.target_id := by
        rw [List.map_cons, List.nodup_cons] at hndS
        exact hndS.1
      rcases List.mem_cons.mp hmem2 with heq | hmem3
      · subst heq
        by_cases hmatch : ∃ r ∈ registry, r.target_id = info2.target_id
        · obtain ⟨r, hr, hrid⟩ := hmatch
          obtain ⟨i, hi⟩ := List.mem_iff_get?.mp hr
          left
          have hfirst : ∀ k, k < i → ∀ rk, registry.get? k = some rk →
              rk.target_id ≠ info2.target_id := by
            intro k hk rk hget hkid
            have hrkmem : rk ∈ registry := List.get?_mem hget
            have hrkr : rk = r :=
              List.inj_on_of_nodup_map hndR hrkmem hr (by rw [hkid, hrid])
            subst hrkr
            have hkl : k < registry.length := (List.get?_eq_some.mp hget).choose
            have hndl : registry.Nodup := List.Nodup.of_map _ hndR
            have hki : k = i := List.get?_inj hkl hndl (hget.trans hi.symm)
            omega
          have hmerge :=
            update_or_create_get?_merge host port registry info2 i r hi hrid hfirst
          rcases update_targets_get? host port rest
              (update_or_create host port registry info2) i
              { r with target := info2 } hmerge with ⟨s, hs, hsid, hsws, hfix⟩
          have hfixed : s = { r with target := info2 } :=
            hfix (fun j hj hjid => hinfoNot (List.mem_map.mpr ⟨j, hj, hjid⟩))
          exact ⟨i, r, hi, hrid, hfixed ▸ hs⟩
        · right
          push_neg at hmatch
          refine ⟨hmatch, registry.length, le_refl _, ?_⟩
          have happ := update_or_create_of_not_mem host port registry info2 hmatch
          have hpos : (update_or_create host port registry info2).get? registry.length
              = some (mkTab host port info2) := by
            rw [happ]
            exact List.get?_concat_length registry (mkTab host port info2)
          rcases update_targets_get? host port rest
              (update_or_create host port registry info2) registry.length
              (mkTab host port info2) hpos with ⟨s, hs, hsid, hsws, hfix⟩
          have hfixed : s = mkTab host port info2 :=
            hfix (fun j hj hjid => hinfoNot (List.mem_map.mpr ⟨j, hj, hjid⟩))
          exact hfixed ▸ hs
      · have hndR2 : ((update_or_create host port registry info).map Tab.target_id).Nodup :=
          nodup_update_or_create host port registry info hndR
        have hne : info.target_id ≠ info2.target_id := by
          intro he
          exact hinfoNot (he ▸ List.mem_map.mpr ⟨info2, hmem3, rfl⟩)
        rcases ih (update_or_create host port registry info) hndR2 hndS2 info2 hmem3 with
          ⟨i, r2, hget2, hid2, hfin⟩ | ⟨hall2, j, hj, hfin⟩
        · rcases update_or_create_get?_inv host port registry info i r2 hget2 with
            ⟨r, hr⟩ | ⟨hs, hlen, hall⟩
          · rcases update_or_create_get? host port registry info i r hr with
              ⟨s1, h1, hid1, hws1, hfix1⟩
            have hs1 : s1 = r2 := by
              rw [h1] at hget2
              exact Option.some.inj hget2
            have hrid : r.target_id = info2.target_id := by
              rw [← hid2, ← hs1]
              exact hid1.symm
            have hrne : r.target_id ≠ info.target_id := by
              rw [hrid]
              exact Ne.symm hne
            have hr2r : r2 = r := by
              rw [← hs1]
              exact hfix1 hrne
            left
            exact ⟨i, r, hr, hrid, by rw [← hr2r]; exact hfin⟩
          · exfalso
            apply hne
            rw [hs] at hid2
            exact hid2
        · right
          constructor
          · intro r hrmem hrid
            obtain ⟨k, hk⟩ := List.mem_iff_get?.mp hrmem
            rcases update_or_create_get? host port registry info k r hk with
              ⟨s1, h1, hid1, _, _⟩
            exact hall2 s1 (List.get?_mem h1) (hid1.trans hrid)
          · exact ⟨j, le_trans (update_or_create_length_le host port registry info) hj, hfin⟩

/-- C4: `update_targets` performs update-or-create on the reply of
`target.get-Targets`: every pre-existing record survives at its position
with its target-id and websocket url (no record is ever deleted), and is
bit-for-bit unchanged when its id is not mentioned in the reply; every
server target's id is present afterwards; and — with distinct ids on
both sides, the registry's own invariant and the shape of a
`get-Targets` reply — each server target whose id matches an existing
record merges its fields into that record (the record's target info
becomes the server's), while each server target with no matching record
is appended past the original records as a new record carrying the
server's target info. -/
theorem update_targets_reconcile (host : String) (port : Nat)
    (registry : List Tab) (server : List TargetInfo) :
    (∀ i r, registry.get? i = some r →
       ∃ s, (update_targets host port registry server).get? i = some s ∧
         s.target_id = r.target_id ∧
         s.websocket_url = r.websocket_url ∧
         ((∀ info ∈ server, info.target_id ≠ r.target_id) → s = r)) ∧
    (∀ info ∈ server, ∃ s ∈ update_targets host port registry server,
       s.target_id = info.target_id) ∧
    ((registry.map Tab.target_id).Nodup →
     (server.map TargetInfo.target_id).Nodup →
     ∀ info ∈ server,
       (∃ i r, registry.get? i = some r ∧ r.target_id = info.target_id ∧
          (update_targets host port registry server).get? i =
            some { r with target := info }) ∨
       ((∀ r ∈ registry, r.target_id ≠ info.target_id) ∧
        ∃ j, registry.length ≤ j ∧
          (update_targets host port registry server).get? j =
            some (mkTab host port info))) :=
  ⟨fun i r h => update_targets_get? host port server registry i r h,
   fun info hmem => update_targets_mem_id host port server registry info hmem,
   fun hndR hndS info hmem =>
     update_targets_merge_or_append host port server registry hndR hndS info hmem⟩

/-- Witness for `update_targets_reconcile`: a one-record registry
reconciled against a reply that updates that record's id and introduces
a fresh id — position 0 keeps its id and url, the matching server target
merges its info into the record, and the fresh server target is appended
as a new record. -/
theorem update_targets_reconcile_witness :
    (∃ s, (update_targets "127.0.0.1" 1
        [mkTab "127.0.0.1" 1 ⟨"a", "page", "u0", "t0", false⟩]
        [⟨"a", "page", "u1", "t1", true⟩, ⟨"b", "worker", "u2", "t2", false⟩]).get? 0
          = some s ∧
      s.target_id = (mkTab "127.0.0.1" 1 ⟨"a", "page", "u0", "t0", false⟩).target_id ∧
      s.websocket_url = (mkTab "127.0.0.1" 1 ⟨"a", "page", "u0", "t0", false⟩).websocket_url ∧
      ((∀ info ∈ [(⟨"a", "page", "u1", "t1", true⟩ : TargetInfo),
          ⟨"b", "worker", "u2", "t2", false⟩],
          info.target_id ≠ (mkTab "127.0.0.1" 1 ⟨"a", "page", "u0", "t0", false⟩).target_id) →
        s = mkTab "127.0.0.1" 1 ⟨"a", "page", "u0", "t0", false⟩)) ∧
    ((∃ i r, [mkTab "127.0.0.1" 1 ⟨"a", "page", "u0", "t0", false⟩].get? i = some r ∧
        r.target_id = (⟨"a", "page", "u1", "t1", true⟩ : TargetInfo).target_id ∧
        (update_targets "127.0.0.1" 1
          [mkTab "127.0.0.1" 1 ⟨"a", "page", "u0", "t0", false⟩]
          [⟨"a", "page", "u1", "t1", true⟩, ⟨"b", "worker", "u2", "t2", false⟩]).get? i
            = some { r with target := ⟨"a", "page", "u1", "t1", true⟩ }) ∨
     ((∀ r ∈ [mkTab "127.0.0.1" 1 ⟨"a", "page", "u0", "t0", false⟩],
         r.target_id ≠ (⟨"a", "page", "u1", "t1", true⟩ : TargetInfo).target_id) ∧
      ∃ j, [mkTab "127.0.0.1" 1 ⟨"a", "page", "u0", "t0", false⟩].length ≤ j ∧
        (update_targets "127.0.0.1" 1
          [mkTab "127.0.0.1" 1 ⟨"a", "page", "u0", "t0", false⟩]
          [⟨"a", "page", "u1", "t1", true⟩, ⟨"b", "worker", "u2", "t2", false⟩]).get? j
            = some (mkTab "127.0.0.1" 1 ⟨"a", "page", "u1", "t1", true⟩))) ∧
    ((∃ i r, [mkTab "127.0.0.1" 1 ⟨"a", "page", "u0", "t0", false⟩].get? i = some r ∧
        r.target_id = (⟨"b", "worker", "u2", "t2", false⟩ : TargetInfo).target_id ∧
        (update_targets "127.0.0.1" 1
          [mkTab "127.0.0.1" 1 ⟨"a", "page", "u0", "t0", false⟩]
          [⟨"a", "page", "u1", "t1", true⟩, ⟨"b", "worker", "u2", "t2", false⟩]).get? i
            = some { r with target := ⟨"b", "worker", "u2", "t2", false⟩ }) ∨
     ((∀ r ∈ [mkTab "127.0.0.1" 1 ⟨"a", "page", "u0", "t0", false⟩],
         r.target_id ≠ (⟨"b", "worker", "u2", "t2", false⟩ : TargetInfo).target_id) ∧
      ∃ j, [mkTab "127.0.0.1" 1 ⟨"a", "page", "u0", "t0", false⟩].length ≤ j ∧
        (update_targets "127.0.0.1" 1
          [mkTab "127.0.0.1" 1 ⟨"a", "page", "u0", "t0", false⟩]
          [⟨"a", "page", "u1", "t1", true⟩, ⟨"b", "worker", "u2", "t2", false⟩]).get? j
            = some (mkTab "127.0.0.1" 1 ⟨"b", "worker", "u2", "t2", false⟩))) :=
  ⟨(update_targets_reconcile "127.0.0.1" 1
      [mkTab "127.0.0.1" 1 ⟨"a", "page", "u0", "t0", false⟩]
      [⟨"a", "page", "u1", "t1", true⟩, ⟨"b", "worker", "u2", "t2", false⟩]).1 0
      (mkTab "127.0.0.1" 1 ⟨"a", "page", "u0", "t0", false⟩) rfl,
   (update_targets_reconcile "127.0.0.1" 1
      [mkTab "127.0.0.1" 1 ⟨"a", "page", "u0", "t0", false⟩]
      [⟨"a", "page", "u1", "t1", true⟩, ⟨"b", "worker", "u2", "t2", false⟩]).2.2
      (by decide) (by decide) ⟨"a", "page", "u1", "t1", true⟩ (by decide),
   (update_targets_reconcile "127.0.0.1" 1
      [mkTab "127.0.0.1" 1 ⟨"a", "page", "u0", "t0", false⟩]
      [⟨"a", "page", "u1", "t1", true⟩, ⟨"b", "worker", "u2", "t2", false⟩]).2.2
      (by decide) (by decide) ⟨"b", "worker", "u2", "t2", false⟩ (by decide)⟩
